import Mathlib

/-!
Shallow embedding of the todo page (`src/app/todo/page.tsx`) of a
Next.js + TypeScript single-list todo application backed by a hosted
document store (Appwrite).

The page holds React state: the input field text, the edit-mode pair
(editing id and draft text), the todos list, a loading flag and an error
message.  Each handler issues at most one remote call and then patches the
in-memory state.  We model a handler as a pure function from the starting
state and the remote call's outcome to the final state (after the
`finally` block has run) paired with the list of remote requests the
handler issued.
-/

/-- A todo document (`src/types/todo.ts`).  The source field `$id` is the
store-assigned document id, written `id` here because `$` is not a Lean
name character; `todo` is the text, `userId` the owner, `completed` the
completion status. -/
structure Todo where
  id : String
  todo : String
  userId : String
  completed : Bool
deriving DecidableEq, Repr

/-- The page's React state (`useState` hooks of `TodoPage`). -/
structure AppState where
  todoText : String
  editingId : Option String
  editText : String
  todos : List Todo
  loading : Bool
  error : Option String
deriving DecidableEq, Repr

/-- The initial values of the `useState` hooks. -/
def initialState : AppState :=
  { todoText := "", editingId := none, editText := "",
    todos := [], loading := false, error := none }

/-- Source constant `DATABASE_ID = 'todos'`. -/
def DATABASE_ID : String := "todos"

/-- Source constant `COLLECTION_ID = 'todosdata'`. -/
def COLLECTION_ID : String := "todosdata"

/-- The field object passed to `databases.createDocument`. -/
structure CreateFields where
  todo : String
  userId : String
  completed : Bool
deriving DecidableEq, Repr

/-- The partial field object passed to `databases.updateDocument`:
a field that is absent from the JavaScript object literal is `none`. -/
structure UpdateFields where
  todo : Option String
  completed : Option Bool
deriving DecidableEq, Repr

/-- A remote call made through the Appwrite `databases` client. -/
inductive Request where
  | listDocuments (databaseId collectionId : String)
  | createDocument (databaseId collectionId docId : String) (fields : CreateFields)
  | updateDocument (databaseId collectionId docId : String) (fields : UpdateFields)
  | deleteDocument (databaseId collectionId docId : String)
deriving DecidableEq, Repr

/-- Outcome of `databases.listDocuments`: the `documents` array on
success, or a thrown error. -/
inductive FetchOutcome where
  | success (documents : List Todo)
  | failure
deriving DecidableEq, Repr

/-- Outcome of `databases.createDocument`: the created document on
success, or a thrown error. -/
inductive CreateOutcome where
  | success (document : Todo)
  | failure
deriving DecidableEq, Repr

/-- Outcome of `databases.updateDocument`.  The page ignores the returned
document (it only logs it), so the success payload is irrelevant but kept
for faithfulness. -/
inductive UpdateOutcome where
  | success (document : Todo)
  | failure
deriving DecidableEq, Repr

/-- Outcome of `databases.deleteDocument` (no payload). -/
inductive DeleteOutcome where
  | success
  | failure
deriving DecidableEq, Repr

/-- Model of the JavaScript `String.prototype.trim()` call: removes
leading and trailing whitespace.  Written with structural recursion over
the character list so that concrete instances evaluate inside the
kernel. -/
def jsTrim (s : String) : String :=
  ⟨((s.data.dropWhile Char.isWhitespace).reverse.dropWhile Char.isWhitespace).reverse⟩

/-- Source function `fetchTodos` (the `useEffect` body run on mount): sets loading and
clears the error, lists the documents of the fixed database/collection
pair, on success replaces `todos` with the response's documents, on error
sets `error`, and finally clears loading. -/
def fetchTodos (s : AppState) (outcome : FetchOutcome) : AppState × List Request :=
  let s1 := { s with loading := true, error := none }
  let req : Request := .listDocuments DATABASE_ID COLLECTION_ID
  match outcome with
  | .success documents =>
      ({ s1 with todos := documents, loading := false }, [req])
  | .failure =>
      ({ s1 with error := some "Failed to fetch todos", loading := false }, [req])

/-- Source function `handleSubmit`: returns at once when the trimmed input is empty;
otherwise creates a document `{todo: todoText.trim(), userId: '1',
completed: false}` under a freshly generated id, on success appends the
returned document to `todos` and clears the input, on error sets `error`,
and finally clears loading. -/
def handleSubmit (s : AppState) (genId : String) (outcome : CreateOutcome) :
    AppState × List Request :=
  if jsTrim s.todoText = "" then (s, [])
  else
    let s1 := { s with loading := true, error := none }
    let req : Request := .createDocument DATABASE_ID COLLECTION_ID genId
      { todo := jsTrim s.todoText, userId := "1", completed := false }
    match outcome with
    | .success document =>
        ({ s1 with todos := s1.todos ++ [document], todoText := "", loading := false },
         [req])
    | .failure =>
        ({ s1 with error := some "Failed to create todo", loading := false }, [req])

/-- Source function `handleInputChange`: stores the input field's value. -/
def handleInputChange (s : AppState) (value : String) : AppState :=
  { s with todoText := value }

/-- Source function `toggleTodo`: returns at once when no todo in memory has the given id;
otherwise updates the document with `{completed: !todoToUpdate.completed}`,
on success maps the same flip over the in-memory list, on error sets
`error`, and finally clears loading. -/
def toggleTodo (s : AppState) (id : String) (outcome : UpdateOutcome) :
    AppState × List Request :=
  match s.todos.find? (fun todo => todo.id == id) with
  | none => (s, [])
  | some todoToUpdate =>
    let s1 := { s with loading := true, error := none }
    let req : Request := .updateDocument DATABASE_ID COLLECTION_ID id
      { todo := none, completed := some (!todoToUpdate.completed) }
    match outcome with
    | .success _ =>
        ({ s1 with
            todos := s1.todos.map (fun todo =>
              if todo.id == id then { todo with completed := !todo.completed } else todo),
            loading := false }, [req])
    | .failure =>
        ({ s1 with error := some "Failed to update todo", loading := false }, [req])

/-- Source function `deleteTodo`: deletes the document with the given id (no membership
check), on success filters it out of the in-memory list, on error sets
`error`, and finally clears loading. -/
def deleteTodo (s : AppState) (id : String) (outcome : DeleteOutcome) :
    AppState × List Request :=
  let s1 := { s with loading := true, error := none }
  let req : Request := .deleteDocument DATABASE_ID COLLECTION_ID id
  match outcome with
  | .success =>
      ({ s1 with todos := s1.todos.filter (fun todo => todo.id != id), loading := false },
       [req])
  | .failure =>
      ({ s1 with error := some "Failed to delete todo", loading := false }, [req])

/-- Source function `updateToDo` (begin edit): when a todo in memory has the given id,
stages its text as the draft and records the editing id; otherwise does
nothing.  No remote call. -/
def updateToDo (s : AppState) (id : String) : AppState × List Request :=
  match s.todos.find? (fun todo => todo.id == id) with
  | some todoToEdit => ({ s with editingId := some id, editText := todoToEdit.todo }, [])
  | none => (s, [])

/-- Source function `handleUpdateText`: stores the edit input's value as the draft. -/
def handleUpdateText (s : AppState) (value : String) : AppState :=
  { s with editText := value }

/-- Source function `saveUpdate`: returns at once when the trimmed draft is empty;
otherwise updates the document with `{todo: editText.trim()}`, on success
merges the trimmed draft into every in-memory todo with that id and resets
the edit-mode state, on error sets `error`, and finally clears loading. -/
def saveUpdate (s : AppState) (id : String) (outcome : UpdateOutcome) :
    AppState × List Request :=
  if jsTrim s.editText = "" then (s, [])
  else
    let s1 := { s with loading := true, error := none }
    let req : Request := .updateDocument DATABASE_ID COLLECTION_ID id
      { todo := some (jsTrim s.editText), completed := none }
    match outcome with
    | .success _ =>
        ({ s1 with
            todos := s1.todos.map (fun todo =>
              if todo.id == id then { todo with todo := jsTrim s.editText } else todo),
            editingId := none, editText := "", loading := false }, [req])
    | .failure =>
        ({ s1 with error := some "Failed to update todo text", loading := false }, [req])

/-- Source function `cancelUpdate`: resets the edit-mode state.  No remote call. -/
def cancelUpdate (s : AppState) : AppState × List Request :=
  ({ s with editingId := none, editText := "" }, [])

/-- The failure contract every operation shares: the todos list, the input
text and the edit-mode state are as before, the error message is `msg`,
and the loading flag ends cleared. -/
def FailsCleanly (s s' : AppState) (msg : String) : Prop :=
  s'.todos = s.todos ∧ s'.todoText = s.todoText ∧ s'.editingId = s.editingId ∧
    s'.editText = s.editText ∧ s'.error = some msg ∧ s'.loading = false

/-! ## Helper lemmas -/

/-- Finding by id commutes with the completion flip mapped in `toggleTodo`:
the flip never changes a todo's id. -/
theorem find_map_completionFlip (l : List Todo) (id : String) :
    ((l.map (fun todo =>
        if todo.id == id then { todo with completed := !todo.completed } else todo)).find?
      (fun todo => todo.id == id)) =
    ((l.find? (fun todo => todo.id == id)).map (fun todo =>
        if todo.id == id then { todo with completed := !todo.completed } else todo)) := by
  induction l with
  | nil => rfl
  | cons t ts ih =>
    cases h : t.id == id with
    | false =>
      simp only [List.map_cons, List.find?_cons, h, Bool.false_eq_true, if_false]
      exact ih
    | true =>
      simp only [List.map_cons, List.find?_cons, h, if_true, Option.map_some']

/-- Mapping the completion flip of `toggleTodo` twice over a list is the
identity. -/
theorem map_completionFlip_twice (l : List Todo) (id : String) :
    ((l.map (fun todo =>
        if todo.id == id then { todo with completed := !todo.completed } else todo)).map
      (fun todo =>
        if todo.id == id then { todo with completed := !todo.completed } else todo)) = l := by
  induction l with
  | nil => rfl
  | cons t ts ih =>
    rw [List.map_cons, List.map_cons, ih]
    cases h : t.id == id with
    | false => simp only [h, Bool.false_eq_true, if_false]
    | true => simp only [h, if_true, Bool.not_not]

/-! ## Concrete fixtures used by witnesses -/

/-- A concrete todo with id `"a"`. -/
def todoA : Todo := { id := "a", todo := "Buy milk", userId := "1", completed := false }

/-- A concrete todo with id `"b"`. -/
def todoB : Todo := { id := "b", todo := "Walk dog", userId := "1", completed := true }

/-- A concrete page state holding `todoA` and `todoB`, with a non-empty
input text, a non-empty draft, and `todoA` in edit mode. -/
def sampleState : AppState :=
  { todoText := "hi", editingId := some "a", editText := "d",
    todos := [todoA, todoB], loading := false, error := none }

/-! ## Claims -/

/-- C1: for every operation (list load, create, toggle, edit-save, delete)
and every starting state, if the remote call fails then the todos list,
the input text and the edit-mode state are exactly what they were before
the operation; the only changes are the operation-specific error message
and the cleared loading flag.  Fetch and delete call the store
unconditionally; create, toggle and save only reach their remote call
under the guard stated with each conjunct. -/
theorem remote_failure_only_sets_error (s : AppState)
    (genId idT idD idS : String) :
    FailsCleanly s (fetchTodos s .failure).1 "Failed to fetch todos" ∧
    (jsTrim s.todoText ≠ "" →
      FailsCleanly s (handleSubmit s genId .failure).1 "Failed to create todo") ∧
    ((s.todos.find? (fun todo => todo.id == idT)).isSome = true →
      FailsCleanly s (toggleTodo s idT .failure).1 "Failed to update todo") ∧
    FailsCleanly s (deleteTodo s idD .failure).1 "Failed to delete todo" ∧
    (jsTrim s.editText ≠ "" →
      FailsCleanly s (saveUpdate s idS .failure).1 "Failed to update todo text") := by
  refine ⟨?_, fun hc => ?_, fun ht => ?_, ?_, fun hs => ?_⟩
  · simp [FailsCleanly, fetchTodos]
  · simp [FailsCleanly, handleSubmit, hc]
  · obtain ⟨t0, ht0⟩ := Option.isSome_iff_exists.mp ht
    simp [FailsCleanly, toggleTodo, ht0]
  · simp [FailsCleanly, deleteTodo]
  · simp [FailsCleanly, saveUpdate, hs]

/-- Witness for C1: fetch and delete failure at the initial (empty) state,
and create, toggle and save failure at a state meeting their guards. -/
theorem remote_failure_only_sets_error_witness :
    FailsCleanly initialState (fetchTodos initialState .failure).1
      "Failed to fetch todos" ∧
    FailsCleanly initialState (deleteTodo initialState "a" .failure).1
      "Failed to delete todo" ∧
    FailsCleanly sampleState (handleSubmit sampleState "g" .failure).1
      "Failed to create todo" ∧
    FailsCleanly sampleState (toggleTodo sampleState "a" .failure).1
      "Failed to update todo" ∧
    FailsCleanly sampleState (saveUpdate sampleState "a" .failure).1
      "Failed to update todo text" :=
  ⟨(remote_failure_only_sets_error initialState "g" "a" "a" "a").1,
    (remote_failure_only_sets_error initialState "g" "a" "a" "a").2.2.2.1,
    (remote_failure_only_sets_error sampleState "g" "a" "b" "a").2.1 (by decide),
    (remote_failure_only_sets_error sampleState "g" "a" "b" "a").2.2.1 (by decide),
    (remote_failure_only_sets_error sampleState "g" "a" "b" "a").2.2.2.2 (by decide)⟩

/-- C2: with a non-empty trimmed input, create issues exactly one create
request carrying the trimmed text, the placeholder owner id "1" and
`completed = false`; on success it appends the store's returned document to
the end of the list and clears the input; on failure the input text and the
list are unchanged. -/
theorem create_request_and_append (s : AppState) (genId : String) (doc : Todo)
    (out : CreateOutcome) (h : jsTrim s.todoText ≠ "") :
    (handleSubmit s genId out).2 =
      [Request.createDocument DATABASE_ID COLLECTION_ID genId
        { todo := jsTrim s.todoText, userId := "1", completed := false }] ∧
    (handleSubmit s genId (.success doc)).1.todos = s.todos ++ [doc] ∧
    (handleSubmit s genId (.success doc)).1.todoText = "" ∧
    (handleSubmit s genId .failure).1.todoText = s.todoText ∧
    (handleSubmit s genId .failure).1.todos = s.todos := by
  cases out <;> simp [handleSubmit, h]

/-- Witness for C2 at a concrete state. -/
theorem create_request_and_append_witness :
    jsTrim sampleState.todoText ≠ "" ∧
    (handleSubmit sampleState "g" (.success todoB)).1.todos =
      sampleState.todos ++ [todoB] ∧
    (handleSubmit sampleState "g" (.success todoB)).2 =
      [Request.createDocument DATABASE_ID COLLECTION_ID "g"
        { todo := jsTrim sampleState.todoText, userId := "1", completed := false }] :=
  ⟨by decide,
    (create_request_and_append sampleState "g" todoB (.success todoB) (by decide)).2.1,
    (create_request_and_append sampleState "g" todoB (.success todoB) (by decide)).1⟩

/-- C3: for an id present in the list, two successful toggles return the
whole todos list (completion flag included) to the original. -/
theorem toggle_twice_roundtrip (s : AppState) (id : String) (r1 r2 : Todo)
    (h : (s.todos.find? (fun todo => todo.id == id)).isSome = true) :
    (toggleTodo (toggleTodo s id (.success r1)).1 id (.success r2)).1.todos = s.todos := by
  obtain ⟨t0, ht0⟩ := Option.isSome_iff_exists.mp h
  simp only [toggleTodo, ht0]
  simp only [find_map_completionFlip, ht0, Option.map_some]
  exact map_completionFlip_twice s.todos id

/-- Witness for C3 at a concrete state. -/
theorem toggle_twice_roundtrip_witness :
    (sampleState.todos.find? (fun todo => todo.id == "a")).isSome = true ∧
    (toggleTodo (toggleTodo sampleState "a" (.success todoA)).1 "a"
      (.success todoA)).1.todos = sampleState.todos :=
  ⟨by decide, toggle_twice_roundtrip sampleState "a" todoA todoA (by decide)⟩

/-- C4: toggling an id that references no todo in memory is a no-op: no
remote request is issued and the whole state (todos list, error message,
loading flag included) is unchanged. -/
theorem toggle_absent_id_noop (s : AppState) (id : String) (out : UpdateOutcome)
    (h : s.todos.find? (fun todo => todo.id == id) = none) :
    toggleTodo s id out = (s, []) := by
  simp [toggleTodo, h]

/-- Witness for C4 at a concrete state. -/
theorem toggle_absent_id_noop_witness :
    sampleState.todos.find? (fun todo => todo.id == "zz") = none ∧
    toggleTodo sampleState "zz" .failure = (sampleState, []) :=
  ⟨by decide, toggle_absent_id_noop sampleState "zz" .failure (by decide)⟩

/-- C5: on remote success, delete removes exactly the entries whose id
matches the given id — the survivors keep their relative order (a sublist
of the original), none of them carries the id, and every original entry
with a different id survives; on remote failure the list is unchanged and
the delete error message is set. -/
theorem delete_removes_exactly_matches (s : AppState) (id : String) :
    (deleteTodo s id .success).1.todos.Sublist s.todos ∧
    (∀ t ∈ (deleteTodo s id .success).1.todos, t.id ≠ id) ∧
    (∀ t ∈ s.todos, t.id ≠ id → t ∈ (deleteTodo s id .success).1.todos) ∧
    (deleteTodo s id .failure).1.todos = s.todos ∧
    (deleteTodo s id .failure).1.error = some "Failed to delete todo" := by
  refine ⟨?_, ?_, ?_, by simp [deleteTodo], by simp [deleteTodo]⟩
  · show List.filter _ s.todos |>.Sublist s.todos
    exact List.filter_sublist s.todos
  · intro t ht
    simp only [deleteTodo, List.mem_filter, bne_iff_ne, ne_eq] at ht
    exact ht.2
  · intro t ht hne
    simp only [deleteTodo, List.mem_filter, bne_iff_ne, ne_eq]
    exact ⟨ht, hne⟩

/-- C7: begin-edit on a listed todo followed by cancel issues no remote
call, leaves the todos list and the input text identical, and returns the
edit-mode state to its initial value. -/
theorem edit_cancel_roundtrip (s : AppState) (t : Todo) (_h : t ∈ s.todos) :
    (updateToDo s t.id).2 = [] ∧
    (cancelUpdate (updateToDo s t.id).1).2 = [] ∧
    (cancelUpdate (updateToDo s t.id).1).1.todos = s.todos ∧
    (cancelUpdate (updateToDo s t.id).1).1.editingId = none ∧
    (cancelUpdate (updateToDo s t.id).1).1.editText = "" ∧
    (cancelUpdate (updateToDo s t.id).1).1.todoText = s.todoText := by
  cases hfind : s.todos.find? (fun todo => todo.id == t.id) <;>
    simp [updateToDo, cancelUpdate, hfind]

/-- Witness for C7 at a concrete state. -/
theorem edit_cancel_roundtrip_witness :
    todoB ∈ sampleState.todos ∧
    (cancelUpdate (updateToDo sampleState todoB.id).1).1.todos = sampleState.todos ∧
    (cancelUpdate (updateToDo sampleState todoB.id).1).1.editingId = none :=
  ⟨by decide, (edit_cancel_roundtrip sampleState todoB (by decide)).2.2.1,
    (edit_cancel_roundtrip sampleState todoB (by decide)).2.2.2.1⟩

/-- C8: submitting empty or whitespace-only input performs no create call
and leaves the whole state (todos list, error message, loading flag and
the input text itself) exactly as before. -/
theorem empty_submit_noop (s : AppState) (genId : String) (out : CreateOutcome)
    (h : jsTrim s.todoText = "") :
    handleSubmit s genId out = (s, []) := by
  simp [handleSubmit, h]

/-- Witness for C8 at a concrete whitespace-only input. -/
theorem empty_submit_noop_witness :
    jsTrim "  " = "" ∧
    handleSubmit { sampleState with todoText := "  " } "g" .failure =
      ({ sampleState with todoText := "  " }, []) :=
  ⟨by decide, empty_submit_noop { sampleState with todoText := "  " } "g" .failure (by decide)⟩

/-- C6: saving a non-empty draft for a listed id, on remote success, sets
the text of the matching entries to the trimmed draft while preserving
their ids and completed flags, leaves every entry with a different id
untouched, keeps the list length, and clears the edit-mode state. -/
theorem save_update_merges_draft (s : AppState) (id : String) (r : Todo)
    (_hmem : ∃ t ∈ s.todos, t.id = id) (h : jsTrim s.editText ≠ "") :
    (saveUpdate s id (.success r)).1.editingId = none ∧
    (saveUpdate s id (.success r)).1.editText = "" ∧
    (saveUpdate s id (.success r)).1.todos.length = s.todos.length ∧
    ∀ (i : Nat) (t : Todo), s.todos[i]? = some t →
      (t.id = id →
        (saveUpdate s id (.success r)).1.todos[i]? =
          some { id := t.id, todo := jsTrim s.editText, userId := t.userId,
                 completed := t.completed }) ∧
      (t.id ≠ id → (saveUpdate s id (.success r)).1.todos[i]? = some t) := by
  refine ⟨by simp [saveUpdate, h], by simp [saveUpdate, h], by simp [saveUpdate, h], ?_⟩
  intro i t hit
  have hmap : (saveUpdate s id (.success r)).1.todos =
      s.todos.map (fun todo =>
        if todo.id == id then { todo with todo := jsTrim s.editText } else todo) := by
    simp [saveUpdate, h]
  rw [hmap, List.getElem?_map, hit, Option.map_some']
  constructor
  · intro hid
    rw [if_pos (beq_iff_eq.mpr hid)]
  · intro hid
    rw [if_neg (fun hb => hid (beq_iff_eq.mp hb))]

/-- Witness for C6 at a concrete state. -/
theorem save_update_merges_draft_witness :
    ((∃ t ∈ sampleState.todos, t.id = "a") ∧ jsTrim sampleState.editText ≠ "") ∧
    (saveUpdate sampleState "a" (.success todoA)).1.editingId = none ∧
    (saveUpdate sampleState "a" (.success todoA)).1.editText = "" ∧
    (saveUpdate sampleState "a" (.success todoA)).1.todos.length =
      sampleState.todos.length :=
  ⟨⟨by decide, by decide⟩,
    (save_update_merges_draft sampleState "a" todoA (by decide) (by decide)).1,
    (save_update_merges_draft sampleState "a" todoA (by decide) (by decide)).2.1,
    (save_update_merges_draft sampleState "a" todoA (by decide) (by decide)).2.2.1⟩

/-- C9: the mount-time load requests the full document list of the fixed
database/collection pair; on success the in-memory list becomes exactly
the returned documents, on failure it stays empty and the fetch error
message is set with the loading flag cleared. -/
theorem initial_fetch_contract (docs : List Todo) :
    DATABASE_ID = "todos" ∧ COLLECTION_ID = "todosdata" ∧
    (fetchTodos initialState (.success docs)).2 =
      [Request.listDocuments DATABASE_ID COLLECTION_ID] ∧
    (fetchTodos initialState (.success docs)).1.todos = docs ∧
    (fetchTodos initialState .failure).2 =
      [Request.listDocuments DATABASE_ID COLLECTION_ID] ∧
    (fetchTodos initialState .failure).1.todos = [] ∧
    (fetchTodos initialState .failure).1.error = some "Failed to fetch todos" ∧
    (fetchTodos initialState .failure).1.loading = false := by
  simp [fetchTodos, initialState, DATABASE_ID, COLLECTION_ID]

/-- C10: delete never touches the edit-mode state — for any starting state
and any id, the editing id and the draft are unchanged — so after
successfully deleting the todo in edit mode the editing id still names an
id that no longer appears in the list. -/
theorem delete_preserves_edit_state (s : AppState) (id : String)
    (out : DeleteOutcome) :
    (deleteTodo s id out).1.editingId = s.editingId ∧
    (deleteTodo s id out).1.editText = s.editText ∧
    (s.editingId = some id →
      (deleteTodo s id .success).1.editingId = some id ∧
      ∀ t ∈ (deleteTodo s id .success).1.todos, t.id ≠ id) := by
  refine ⟨?_, ?_, fun h => ⟨?_, ?_⟩⟩
  · cases out <;> simp [deleteTodo]
  · cases out <;> simp [deleteTodo]
  · simp [deleteTodo, h]
  · intro t ht
    simp only [deleteTodo, List.mem_filter, bne_iff_ne, ne_eq] at ht
    exact ht.2

/-- Witness for C10 at a concrete state (the todo in edit mode, id "a",
is the one deleted). -/
theorem delete_preserves_edit_state_witness :
    (deleteTodo sampleState "a" .success).1.editingId = sampleState.editingId ∧
    (deleteTodo sampleState "a" .success).1.editText = sampleState.editText ∧
    (deleteTodo sampleState "a" .success).1.editingId = some "a" :=
  ⟨(delete_preserves_edit_state sampleState "a" .success).1,
    (delete_preserves_edit_state sampleState "a" .success).2.1,
    ((delete_preserves_edit_state sampleState "a" .success).2.2 (by decide)).1⟩
